import Mathlib

/-!
A verification development for the attribute-slot / observation core of the
`masaris` reactive attribute engine.

The embedding mirrors, definition by definition:
* `ExecutorBase` and its `value` property (src/masaris/objects/core.py) as
  the structure `Exec` with `setValue` / `readValue`;
* the validation-layer slot subtypes `Typed` and `Selector`
  (src/masaris/objects/executors.py);
* `Executor.__set_name__`'s copy-on-fork descriptor-table logic and
  `add_par_to_class` (src/masaris/utilities/classTools.py) over an explicit
  heap of tables, so that Python's in-place dict mutation versus dict
  copying is observable;
* `BaseParameterized.__init__`, `__setattr__` and `_attach_generator`
  (src/masaris/objects/core.py) as `initP` / `setattrP`;
* the scalar-delegation branch of `Variable.value`'s setter
  (src/masaris/objects/executors.py).

Modelling conventions: Python `None` is `Option.none`, so slot payloads are
`Option V`.  A callback (write/read modifier, configuration validator,
class-level or instance-level execution) is modelled as a labelled pure
decision `Option V → Except PyErr Unit`: it may raise, and the trace of
labels records invocation order.  Side effects of callbacks other than
raising live outside the slot state (the engine never rolls them back);
callbacks that re-enter the slot and mutate it are outside this model.
Python exception classes are collapsed to the constructors of `PyErr`.
-/

/-- The exception kinds raised by the core.  `TypeError` is the spec's
`TypeMismatch`, `ValueError` covers `OutOfRange`/`InvalidChoice`,
`AttributeError` covers `ReadOnlyViolation`/`NullNotAllowed`, and
`Warning` is the exception object raised for unknown constructor
arguments. -/
inductive PyErr where
  | typeError
  | valueError
  | attributeError
  | warning
  | keyError
deriving DecidableEq, Repr

/-- A callback as stored in one of an executor's chains: a label (used only
to observe invocation order) and a pure decision on the value being
written/read, which may raise. -/
structure Cb (V : Type) where
  label : String
  run : Option V → Except PyErr Unit

/-- The state of `ExecutorBase` (merged with the flags the `Executor`
subclass adds in its `__init__`): the five callback chains, `_value`,
`previous_value`, the `_first` flag backing the `default` property,
`_default_value`, and the `Executor` flags `_readonly`, `_visible`,
`_allow_none`.  (`name` and `parent` carry no state the claims touch.) -/
structure Exec (V : Type) where
  write_modifiers : List (Cb V)
  read_modifiers : List (Cb V)
  configuration : List (Cb V)
  class_executions : List (Cb V)
  executions : List (Cb V)
  value : Option V
  previous_value : Option V
  first : Bool
  default_value : Option V
  readonly : Bool
  visible : Bool
  allow_none : Bool

/-- A fresh `Executor(value=v)`: empty chains, `previous_value = None`,
`_first = True`, `_default_value = value`, default flags
(`readonly=False`, `visible=True`, `allow_none=True`). -/
def mkExec {V : Type} (v : Option V) : Exec V :=
  { write_modifiers := []
    read_modifiers := []
    configuration := []
    class_executions := []
    executions := []
    value := v
    previous_value := none
    first := true
    default_value := v
    readonly := false
    visible := true
    allow_none := true }

/-- Run a chain of callbacks in order on a value, as the `for` loops in
`ExecutorBase.value` do: stop at the first raise.  Returns the labels of
the callbacks that were invoked (the raising one included) and the
exception, if any. -/
def runChain {V : Type} (v : Option V) : List (Cb V) → List String × Option PyErr
  | [] => ([], none)
  | c :: rest =>
    match c.run v with
    | .error e => ([c.label], some e)
    | .ok _ =>
      let r := runChain v rest
      (c.label :: r.1, r.2)

/-- `ExecutorBase.value` setter (core.py lines 199-233).  Saves
`previous_value`, shifts `_value` into `previous_value`, stores the new
value, runs the write modifiers (outside the try/except: a raise there
propagates with NO restore), then runs configuration, class-level and
instance-level chains inside the try/except: a raise there restores
`_value` and `previous_value` and propagates.  On full success `_first`
is cleared.  Returns the post-call state, the propagated exception if
any, and the trace of invoked callback labels. -/
def setValue {V : Type} (e : Exec V) (newValue : Option V) :
    Exec V × Option PyErr × List String :=
  let savedPrev := e.previous_value
  let e1 : Exec V := { e with previous_value := e.value, value := newValue }
  let wres := runChain newValue e1.write_modifiers
  match wres.2 with
  | some err => (e1, some err, wres.1)
  | none =>
    let eres := runChain newValue
      (e1.configuration ++ e1.class_executions ++ e1.executions)
    match eres.2 with
    | some err =>
      ({ e1 with value := e1.previous_value, previous_value := savedPrev },
        some err, wres.1 ++ eres.1)
    | none =>
      ({ e1 with first := false }, none, wres.1 ++ eres.1)

/-- `ExecutorBase.value` getter: run the read modifiers on the current
value (a raise propagates), then return `_value`. -/
def readValue {V : Type} (e : Exec V) : Except PyErr (Option V) :=
  match (runChain e.value e.read_modifiers).2 with
  | some err => .error err
  | none => .ok e.value

/-- The labels of a chain in registration order. -/
def labels {V : Type} (cs : List (Cb V)) : List String :=
  cs.map Cb.label

/-! ### Validation layer: `Typed` and `Selector` -/

/-- The runtime shapes the embedding distinguishes, with `objT` playing
`object` and `noneT` playing `NoneType`. -/
inductive PyType where
  | objT
  | numT
  | intT
  | boolT
  | strT
  | noneT
deriving DecidableEq, Repr

/-- Python `issubclass` on the embedded shapes: everything is a subclass of
`object`, `bool <: int <: Number`, and the relation is reflexive. -/
def issub : PyType → PyType → Bool
  | _, .objT => true
  | .boolT, .intT => true
  | .boolT, .numT => true
  | .intT, .numT => true
  | t, u => t == u

/-- Scalar payloads carrying a runtime shape, for the `Typed` slots. -/
inductive PyVal where
  | vInt (n : Int)
  | vBool (b : Bool)
  | vStr (s : String)
deriving DecidableEq, Repr

/-- `type(value)` for a `PyVal`. -/
def PyVal.typeOf : PyVal → PyType
  | .vInt _ => .intT
  | .vBool _ => .boolT
  | .vStr _ => .strT

/-- `type(value)` where the value may be `None`. -/
def typeOfOpt : Option PyVal → PyType
  | none => .noneT
  | some v => v.typeOf

/-- The loop body of `Typed._check_type` (executors.py lines 189-198):
iterate over the allowed types; in each iteration raise `TypeError` if
subclassing is disallowed and the value type is not a subclass of the
allowed type, then raise `TypeError` if the value type is not a subclass
of the allowed type. -/
def checkTypeLoop (allowSub : Bool) (tv : PyType) : List PyType → Except PyErr Unit
  | [] => .ok ()
  | allowed :: rest =>
    if !allowSub && !issub tv allowed then .error .typeError
    else if !issub tv allowed then .error .typeError
    else checkTypeLoop allowSub tv rest

/-- `Typed._check_type` packaged as the configuration callback the `Typed`
initializer appends. -/
def typedCb (types : List PyType) (allowSub : Bool) : Cb PyVal :=
  { label := "typed", run := fun v => checkTypeLoop allowSub (typeOfOpt v) types }

/-- A `Typed(allowed_types=types, allow_subclasses=allowSub, value=v)` slot:
a fresh executor whose configuration chain holds `_check_type`. -/
def mkTyped (types : List PyType) (allowSub : Bool) (v : Option PyVal) : Exec PyVal :=
  let e := mkExec v
  { e with configuration := e.configuration ++ [typedCb types allowSub] }

/-- `Selector._set_extension` (executors.py lines 411-413): raise
`ValueError` when the written value is not among the choices.  It is
registered as a WRITE MODIFIER, not a configuration validator. -/
def selectorCb {V : Type} [DecidableEq V] (choices : List (Option V)) : Cb V :=
  { label := "selector", run := fun v =>
      if v ∈ choices then .ok () else .error .valueError }

/-- A `Selector(choices=choices, value=v)` slot: a fresh executor whose
write-modifier chain holds `_set_extension`. -/
def mkSelector {V : Type} [DecidableEq V] (choices : List (Option V)) (v : Option V) :
    Exec V :=
  let e := mkExec v
  { e with write_modifiers := e.write_modifiers ++ [selectorCb choices] }

/-- The scalar-delegation branch of `Variable.value`'s setter (executors.py
lines 350-367), taken when the written value is not an instance of the
nested object's type: fetch the nested object's `value` executor, save its
write modifiers, prepend the Variable's own write modifiers, delegate to
`ExecutorBase.value.fset`; any exception is wrapped in `ValueError`, and a
`finally` block restores the saved modifier list. -/
def variableSetScalar {V : Type} (selfWriteModifiers : List (Cb V)) (inner : Exec V)
    (newValue : Option V) : Exec V × Option PyErr :=
  let saved := inner.write_modifiers
  let inner1 := { inner with write_modifiers := selfWriteModifiers ++ inner.write_modifiers }
  let r := setValue inner1 newValue
  ({ r.1 with write_modifiers := saved },
    (r.2.1).map fun _ => PyErr.valueError)

/-! ### Descriptor tables, classes and per-instance specialization

Python dicts are mutable objects shared by reference, and the claims C4/C5
are precisely about in-place mutation versus copying, so tables live in an
explicit heap (`World.heap`) addressed by table ids; a class either owns a
table (`ownTable = some tid`, the table in its `__dict__`) or inherits its
parent's, exactly as Python attribute lookup finds `_descriptors`.  Slots
are identified by numeric ids; the watcher-inheritance copy performed by
`__set_name__` mutates slot objects, not tables, and is not needed by the
table-level claims. -/

/-- Association-list lookup with Python-dict key semantics. -/
def lookupL {A : Type} : List (String × A) → String → Option A
  | [], _ => none
  | p :: rest, k => if p.1 = k then some p.2 else lookupL rest k

/-- Python `d[k] = v`: replace in place (keeping the key's position) if the
key exists, otherwise append, preserving insertion order. -/
def dinsert {A : Type} : List (String × A) → String → A → List (String × A)
  | [], k, v => [(k, v)]
  | p :: rest, k, v => if p.1 = k then (k, v) :: rest else p :: dinsert rest k v

/-- A `MyDict` of descriptors: the `owner_class` tag (`__qualname__` of the
class that last wrote it) plus the name → slot-id entries in insertion
order. -/
structure DTable where
  owner_class : String
  entries : List (String × Nat)
deriving DecidableEq, Repr

/-- A Python class as the table logic sees it: `__name__`, `__qualname__`,
the table in its own `__dict__` (if any), its base class, and the
`__perinstance` marker set by `add_par_to_class`. -/
structure PyCls where
  cname : String
  qualname : String
  ownTable : Option Nat
  parentIdx : Option Nat
  perinstance : Bool
deriving DecidableEq, Repr

/-- The process state: the heap of descriptor tables and the registry of
classes (a class's `parentIdx` always points to an earlier entry). -/
structure World where
  heap : List DTable
  classes : List PyCls
deriving DecidableEq, Repr

/-- Walk the base-class chain looking for a `_descriptors` attribute, as
`getattr(owner, "_descriptors", None)` does; fuelled by the registry
size. -/
def findTableAux (w : World) : Nat → Nat → Option Nat
  | 0, _ => none
  | fuel + 1, i =>
    match w.classes.get? i with
    | none => none
    | some c =>
      match c.ownTable with
      | some t => some t
      | none =>
        match c.parentIdx with
        | some p => findTableAux w fuel p
        | none => none

/-- The table id that `getattr(cls, "_descriptors", None)` resolves to. -/
def lookupTable (w : World) (i : Nat) : Option Nat :=
  findTableAux w w.classes.length i

/-- `Executor.__set_name__`'s table manipulation (executors.py lines
59-83): if no `_descriptors` is reachable, create a fresh table on the
owner; if the reachable table's `owner_class` tag differs from the
owner's `__qualname__`, fork a copy onto the owner (tagged with the
owner's qualname) and add the entry to the copy; otherwise add the entry
to the reachable table IN PLACE. -/
def setName (w : World) (ownerIdx : Nat) (name : String) (slot : Nat) : World :=
  match w.classes.get? ownerIdx with
  | none => w
  | some owner =>
    match lookupTable w ownerIdx with
    | none =>
      { heap := w.heap ++ [{ owner_class := owner.qualname, entries := [(name, slot)] }],
        classes := w.classes.set ownerIdx { owner with ownTable := some w.heap.length } }
    | some tid =>
      match w.heap.get? tid with
      | none => w
      | some t =>
        if t.owner_class ≠ owner.qualname then
          { heap := w.heap ++
              [{ owner_class := owner.qualname, entries := dinsert t.entries name slot }],
            classes := w.classes.set ownerIdx { owner with ownTable := some w.heap.length } }
        else
          { heap := w.heap.set tid { t with entries := dinsert t.entries name slot },
            classes := w.classes }

/-- An instance as the table-level claims see it: its (possibly
specialized) class and its `__params__` binding of attribute names to
slot ids. -/
structure PyInst where
  clsIdx : Nat
  iparams : List (String × Nat)
deriving DecidableEq, Repr

/-- `BaseParameterized.__init__` with no arguments at the table level: bind
every name of the class's descriptor table to the prototype slot it maps
to (core.py lines 262-271, the no-kwargs branch). -/
def mkInstW (w : World) (clsIdx : Nat) : Option PyInst :=
  match lookupTable w clsIdx with
  | none => none
  | some tid =>
    match w.heap.get? tid with
    | none => none
    | some t => some { clsIdx := clsIdx, iparams := t.entries }

/-- `add_par_to_class(inst, name, par)` (classTools.py lines 5-22).  If the
instance's class is not yet a per-instance specialization, synthesize
`type(cls.__name__, (cls,), ...)` — same `__name__`, `__qualname__` equal
to that name, NO own `_descriptors` — mark it and rebind the instance.
Then `inst._descriptors[name] = par` mutates, in place, whatever table
attribute lookup reaches from the (new) class; `inst.__params__[name] =
par` binds the instance; finally `par.__set_name__(cls, name)` runs the
fork logic.  (The trailing `setattr(cls, name, par)` installs the
descriptor on the new class only and does not touch tables.) -/
def addParToClass (w : World) (inst : PyInst) (name : String) (slot : Nat) :
    World × PyInst :=
  match w.classes.get? inst.clsIdx with
  | none => (w, inst)
  | some cls =>
    let spec :=
      if cls.perinstance then (w, inst.clsIdx)
      else
        ({ w with classes := w.classes ++
            [{ cname := cls.cname, qualname := cls.cname, ownTable := none,
               parentIdx := some inst.clsIdx, perinstance := true }] },
          w.classes.length)
    let w1 := spec.1
    let ci := spec.2
    let w2 :=
      match lookupTable w1 ci with
      | none => w1
      | some tid =>
        match w1.heap.get? tid with
        | none => w1
        | some t =>
          { w1 with heap := w1.heap.set tid { t with entries := dinsert t.entries name slot } }
    let inst2 : PyInst := { clsIdx := ci, iparams := dinsert inst.iparams name slot }
    (setName w2 ci name slot, inst2)

/-! ### Parameterized objects: construction and attribute writes

`__params__[name]` is either literally the prototype descriptor object
(`Sum.inl ()` — the identity `self._descriptors[key] == self.__params__[key]`
tested by `__setattr__` holds) or an owned clone (`Sum.inr e`).  The
`isPar` parameter classifies values as Parameterized instances, standing
for `issubclass(type(value), Parameterized)`; the claims' scalar slots
use the constantly-false classifier. -/

/-- The owner's `__params__` entry for one attribute. -/
def PSlot (V : Type) : Type := Sum Unit (Exec V)

/-- A live `BaseParameterized` object: its class's descriptor table (name →
prototype slot, insertion order), its `__params__`, and its plain
(non-slot) instance attributes. -/
structure PObj (V : Type) where
  descriptors : List (String × Exec V)
  params : List (String × PSlot V)
  plain : List (String × Option V)

/-- `BaseParameterized._attach_generator` (core.py lines 292-298) from the
prototype's side: deepcopy the descriptor, clear `_first`, set
`_default_value` to the prototype's `value` property (running its read
modifiers; a raise there propagates before anything is stored, the
`.error` case), store the clone in `__params__`, then run
`executor.value = value`.  The `.ok` case returns the clone's state as
left in `__params__` (the write's rollback included) together with the
exception the write raised, if any. -/
def attachExec {V : Type} (proto : Exec V) (v : Option V) :
    Except PyErr (Exec V × Option PyErr) :=
  match readValue proto with
  | .error err => .error err
  | .ok dv =>
    let ex0 : Exec V := { proto with first := false, default_value := dv }
    let r := setValue ex0 v
    .ok (r.1, r.2.1)

/-- `BaseParameterized.__setattr__` (core.py lines 281-290) combined with
`Executor.__set__` (executors.py lines 101-119), returning the post-call
object and the propagated exception, if any:
* declared attribute still bound to the prototype — `_attach_generator`
  (NO readonly or allow-none check on this path);
* declared attribute with an owned executor — `object.__setattr__` finds
  the class descriptor, whose `__set__` raises `AttributeError` on a
  readonly slot, then on `None` when `allow_none` is off, then on writing
  a non-Parameterized over a Parameterized current value (read via the
  executor's `value` property), and otherwise assigns `executor.value`;
* undeclared attribute — for a Parameterized value the source executes
  `self.attachPar(key, Executor(value=value))` (core.py line 288); no
  method or attribute named `attachPar` exists anywhere in the repository
  (the per-instance attachment method defined on `Parameterized`,
  core.py line 327, is `attach_parameter`, and there is no `__getattr__`
  hook or dynamic assignment), so the name lookup itself raises
  `AttributeError` BEFORE anything is installed and before the
  `raise Warning` line is reached — the object is unchanged.  Any other
  value is set as a plain instance attribute (and `__init__`'s trailing
  `raise Warning` is the caller's concern). -/
def setattrP {V : Type} (isPar : Option V → Bool) (obj : PObj V) (key : String)
    (v : Option V) : PObj V × Option PyErr :=
  match lookupL obj.descriptors key, lookupL obj.params key with
  | some proto, some (.inl _) =>
    (match attachExec proto v with
     | .error err => (obj, some err)
     | .ok (ex1, err) => ({ obj with params := dinsert obj.params key (.inr ex1) }, err))
  | some proto, some (.inr ex) =>
    if proto.readonly then (obj, some .attributeError)
    else if v.isNone && !proto.allow_none then (obj, some .attributeError)
    else
      match readValue ex with
      | .error err => (obj, some err)
      | .ok cur =>
        if isPar cur && !isPar v then (obj, some .attributeError)
        else
          let r := setValue ex v
          ({ obj with params := dinsert obj.params key (.inr r.1) }, r.2.1)
  | some _, none => (obj, some .keyError)
  | none, _ =>
    if isPar v then (obj, some .attributeError)
    else ({ obj with plain := dinsert obj.plain key v }, none)

/-- The descriptor-driven part of `BaseParameterized.__init__` (core.py
lines 262-271): for each declared attribute in table order, bind the
prototype itself when the constructor received no value or `None` for it,
and otherwise attach a clone via `_attach_generator`; a raise during an
attach aborts the loop (the exception propagates out of `__init__`) with
the bindings made so far. -/
def initParams {V : Type} :
    List (String × Exec V) → List (String × Option V) →
      List (String × PSlot V) × Option PyErr
  | [], _ => ([], none)
  | (name, proto) :: rest, kwargs =>
    match lookupL kwargs name with
    | some (some tv) =>
      (match attachExec proto (some tv) with
       | .error err => ([], some err)
       | .ok (ex1, some err) => ([(name, .inr ex1)], some err)
       | .ok (ex1, none) =>
         let r := initParams rest kwargs
         ((name, .inr ex1) :: r.1, r.2))
    | some none =>
      let r := initParams rest kwargs
      ((name, .inl ()) :: r.1, r.2)
    | none =>
      let r := initParams rest kwargs
      ((name, .inl ()) :: r.1, r.2)

/-- The constructor arguments left in `kwargs` after the declared names
were popped. -/
def leftoverKwargs {V : Type} (descriptors : List (String × Exec V))
    (kwargs : List (String × Option V)) : List (String × Option V) :=
  kwargs.filter fun p => (lookupL descriptors p.1).isNone

/-- The `setattr(self, key, value)` loop over leftover constructor
arguments (core.py lines 273-274), stopping at the first raise. -/
def setLeftovers {V : Type} (isPar : Option V → Bool) :
    PObj V → List (String × Option V) → PObj V × Option PyErr
  | obj, [] => (obj, none)
  | obj, (k, v) :: rest =>
    let r := setattrP isPar obj k v
    match r.2 with
    | some err => (r.1, some err)
    | none => setLeftovers isPar r.1 rest

/-- `BaseParameterized.__init__` (core.py lines 261-275): build
`__params__` from the descriptor table and the keyword arguments; if any
arguments are left over, set each as an ordinary attribute and then
execute `raise Warning(...)` — the constructor raises an actual `Warning`
exception. -/
def initP {V : Type} (isPar : Option V → Bool) (descriptors : List (String × Exec V))
    (kwargs : List (String × Option V)) : PObj V × Option PyErr :=
  let ip := initParams descriptors kwargs
  let obj0 : PObj V := { descriptors := descriptors, params := ip.1, plain := [] }
  match ip.2 with
  | some err => (obj0, some err)
  | none =>
    let lo := leftoverKwargs descriptors kwargs
    if lo.isEmpty then (obj0, none)
    else
      let r := setLeftovers isPar obj0 lo
      match r.2 with
      | some err => (r.1, some err)
      | none => (r.1, some .warning)

/-- The `default` property (`_first` flag) of the slot bound under `key`:
the prototype's flag while the binding is shared, the owned executor's
after it forks. -/
def slotFirst {V : Type} (obj : PObj V) (key : String) : Option Bool :=
  match lookupL obj.params key with
  | some (.inl _) => (lookupL obj.descriptors key).map Exec.first
  | some (.inr e) => some e.first
  | none => none

/-- The raw stored `_value` of the slot bound under `key`. -/
def slotValue {V : Type} (obj : PObj V) (key : String) : Option (Option V) :=
  match lookupL obj.params key with
  | some (.inl _) => (lookupL obj.descriptors key).map Exec.value
  | some (.inr e) => some e.value
  | none => none

/-- The raw stored `previous_value` of the slot bound under `key`. -/
def slotPrev {V : Type} (obj : PObj V) (key : String) : Option (Option V) :=
  match lookupL obj.params key with
  | some (.inl _) => (lookupL obj.descriptors key).map Exec.previous_value
  | some (.inr e) => some e.previous_value
  | none => none

/-! ### Concrete fixtures used by the witnesses and counterexamples -/

/-- A recording callback that always accepts. -/
def cbOk (l : String) : Cb Int :=
  { label := l, run := fun _ => .ok () }

/-- A recording callback that always raises `ValueError`. -/
def cbFail (l : String) : Cb Int :=
  { label := l, run := fun _ => .error .valueError }

/-- A slot with one validator, one type-level callback and one failing
instance-level callback, holding `1` after a committed write of `1` over
`0`. -/
def execWatched : Exec Int :=
  { mkExec (some 1) with
      previous_value := some 0
      configuration := [cbOk "validator"]
      class_executions := [cbOk "type-level"]
      executions := [cbFail "failing-watcher"] }

/-- A slot with one validator, one type-level callback and one
instance-level callback, all accepting and recording. -/
def execLogged : Exec Int :=
  { mkExec (some 1) with
      configuration := [cbOk "validator"]
      class_executions := [cbOk "type-level"]
      executions := [cbOk "instance-level"] }

/-- Does `__params__[key]` hold an owned (cloned) executor rather than the
shared prototype? -/
def isOwned {V : Type} (obj : PObj V) (key : String) : Bool :=
  match lookupL obj.params key with
  | some (.inr _) => true
  | _ => false

/-- A read-only prototype slot holding `1`. -/
def roProto : Exec Int :=
  { mkExec (some 1) with readonly := true }

/-- An object declaring the read-only attribute `x`, constructed WITHOUT a
value for it (so `x` is still bound to the prototype). -/
def objReadonlyFresh : PObj Int :=
  (initP (fun _ => false) [("x", roProto)] []).1

/-- An object declaring the read-only attribute `x`, constructed WITH the
value `2` for it (so `x` is bound to an owned clone). -/
def objReadonlyBound : PObj Int :=
  (initP (fun _ => false) [("x", roProto)] [("x", some 2)]).1

/-- An `Integer(value=1)`-style prototype: a `Typed` slot allowing `int`. -/
def protoTyped : Exec PyVal :=
  mkTyped [.intT] false (some (.vInt 1))

/-- An object declaring the typed attribute `n`, constructed without a
value for it. -/
def objTyped : PObj PyVal :=
  (initP (fun _ => false) [("n", protoTyped)] []).1

/-- A read modifier that always raises, as a `Sampler`-style read hook
can. -/
def cbReadFail : Cb PyVal :=
  { label := "read-raise", run := fun _ => .error .valueError }

/-- A prototype slot whose `value` property raises on read. -/
def protoReadRaises : Exec PyVal :=
  { mkExec (some (.vInt 0)) with read_modifiers := [cbReadFail] }

/-- An object declaring the attribute `s` with the read-raising prototype,
constructed without a value for it. -/
def objReadRaises : PObj PyVal :=
  (initP (fun _ => false) [("s", protoReadRaises)] []).1

/-- A single top-level class `A` (its `__qualname__` equals its `__name__`)
owning table `0`, which declares the attribute `x` as slot `0`. -/
def worldA : World :=
  { heap := [{ owner_class := "A", entries := [("x", 0)] }],
    classes := [{ cname := "A", qualname := "A", ownTable := some 0,
                  parentIdx := none, perinstance := false }] }

/-- An instance of `worldA`'s class `A`, as constructed with no
arguments. -/
def instA : PyInst :=
  { clsIdx := 0, iparams := [("x", 0)] }

/-- Class `A` together with a dynamically synthesized subclass that shares
its name (hence its `__qualname__`) and has no own table — the shape
`type(cls.__name__, (cls,), ...)` produces. -/
def worldSameName : World :=
  { heap := [{ owner_class := "A", entries := [("x", 0)] }],
    classes := [{ cname := "A", qualname := "A", ownTable := some 0,
                  parentIdx := none, perinstance := false },
                { cname := "A", qualname := "A", ownTable := none,
                  parentIdx := some 0, perinstance := false }] }

/-- Class `A` together with an ordinarily declared subclass `B` (distinct
`__qualname__`, no own table yet). -/
def worldDiffName : World :=
  { heap := [{ owner_class := "A", entries := [("x", 0)] }],
    classes := [{ cname := "A", qualname := "A", ownTable := some 0,
                  parentIdx := none, perinstance := false },
                { cname := "B", qualname := "B", ownTable := none,
                  parentIdx := some 0, perinstance := false }] }

/-! ### Helper lemmas -/

theorem runChain_fst_of_ok {V : Type} (v : Option V) :
    ∀ cs : List (Cb V), (runChain v cs).2 = none → (runChain v cs).1 = labels cs := by
  intro cs
  induction cs with
  | nil => intro _; rfl
  | cons c rest ih =>
    intro h
    unfold runChain at h ⊢
    cases hr : c.run v with
    | error e =>
      rw [hr] at h
      simp at h
    | ok u =>
      rw [hr] at h
      dsimp only at h ⊢
      simp only [labels, List.map]
      exact congrArg (c.label :: ·) (ih h)

theorem labels_append {V : Type} (a b : List (Cb V)) :
    labels (a ++ b) = labels a ++ labels b := by
  simp [labels]

/-- `setValue` never sets `_first` back to `True`. -/
theorem setValue_first_false {V : Type} (e : Exec V) (v : Option V)
    (h : e.first = false) : (setValue e v).1.first = false := by
  unfold setValue
  dsimp only
  cases hw : (runChain v e.write_modifiers).2 with
  | some err => exact h
  | none =>
    dsimp only
    cases hx : (runChain v (e.configuration ++ e.class_executions ++ e.executions)).2 with
    | some err => exact h
    | none => rfl

/-! ### C1: rollback atomicity for validator/callback failures -/

/-- C1: for every slot and every write during which a configuration
validator, a type-level callback or an instance-level callback raises
(the rejection happening inside the try/except, the write modifiers
having run without raising), the slot's `current_value` and
`previous_value` after the failed write equal their values from
immediately before the write began, and the exception propagates to the
caller. -/
theorem write_rollback_on_callback_failure {V : Type} (e : Exec V) (newValue : Option V)
    (err : PyErr)
    (hw : (runChain newValue e.write_modifiers).2 = none)
    (hx : (runChain newValue (e.configuration ++ e.class_executions ++ e.executions)).2
      = some err) :
    (setValue e newValue).1.value = e.value ∧
    (setValue e newValue).1.previous_value = e.previous_value ∧
    (setValue e newValue).2.1 = some err := by
  unfold setValue
  dsimp only
  rw [hw, hx]
  exact ⟨rfl, rfl, rfl⟩

theorem write_rollback_on_callback_failure_witness :
    (setValue execWatched (some 5)).1.value = some 1 ∧
    (setValue execWatched (some 5)).1.previous_value = some 0 ∧
    (setValue execWatched (some 5)).2.1 = some .valueError :=
  write_rollback_on_callback_failure execWatched (some 5) .valueError rfl rfl

/-! ### C3: chain ordering on a successful write -/

/-- C3: on a successful write, the chains run in the fixed order —
configuration validators first, then type-level (class) callbacks, then
instance-level callbacks — and within each chain in registration order,
as the recorded trace of invocation labels shows (write modifiers, which
precede all three chains, are included at the front). -/
theorem write_chain_order {V : Type} (e : Exec V) (newValue : Option V)
    (hw : (runChain newValue e.write_modifiers).2 = none)
    (hx : (runChain newValue (e.configuration ++ e.class_executions ++ e.executions)).2
      = none) :
    (setValue e newValue).2.1 = none ∧
    (setValue e newValue).2.2 =
      labels e.write_modifiers ++ labels e.configuration ++
        labels e.class_executions ++ labels e.executions := by
  unfold setValue
  dsimp only
  rw [hw, hx]
  refine ⟨rfl, ?_⟩
  dsimp only
  rw [runChain_fst_of_ok newValue e.write_modifiers hw,
    runChain_fst_of_ok newValue _ hx]
  simp [labels_append, List.append_assoc]

theorem write_chain_order_witness :
    (setValue execLogged (some 7)).2.1 = none ∧
    (setValue execLogged (some 7)).2.2 = ["validator", "type-level", "instance-level"] := by
  have h := write_chain_order execLogged (some 7) rfl rfl
  exact ⟨h.1, h.2.trans rfl⟩

/-! ### C2: `Selector` rejection and (the absence of) rollback -/

/-- C2 counterexample: a `Selector` slot over choices `{1, 2}` currently
holding `1`; writing `5` raises (`InvalidChoice`/`ValueError`), yet the
stored `current_value` after the failed write is the rejected `5`, not
the pre-write `1`, and `previous_value` has been overwritten too — the
selector check runs as a write modifier, outside the try/except that
restores state. -/
theorem selector_rejected_write_mutates_state :
    (setValue (mkSelector [some 1, some 2] (some (1 : Int))) (some 5)).2.1
        = some .valueError ∧
    (setValue (mkSelector [some 1, some 2] (some (1 : Int))) (some 5)).1.value = some 5 ∧
    (mkSelector [some 1, some 2] (some (1 : Int))).value = some 1 ∧
    (setValue (mkSelector [some 1, some 2] (some (1 : Int))) (some 5)).1.previous_value
        = some 1 ∧
    (mkSelector [some 1, some 2] (some (1 : Int))).previous_value = none := by
  refine ⟨by decide, by decide, by decide, by decide, by decide⟩

/-- C2 amended: writing a value that is not in the candidate set to a
`Selector` slot raises `InvalidChoice` (`ValueError`), but the slot's
stored state is NOT left as it was: `current_value` is left holding the
rejected value and `previous_value` the pre-write `current_value`,
because `_set_extension` raises from the write-modifier chain, which runs
before the try/except that would restore the state. -/
theorem selector_reject_no_rollback {V : Type} [DecidableEq V]
    (choices : List (Option V)) (e : Exec V) (v : Option V)
    (hwm : e.write_modifiers = [selectorCb choices])
    (hv : v ∉ choices) :
    setValue e v =
      ({ e with previous_value := e.value, value := v }, some .valueError, ["selector"]) := by
  unfold setValue
  dsimp only
  rw [hwm]
  simp [runChain, selectorCb, hv]

theorem selector_reject_no_rollback_witness :
    setValue (mkSelector [some 3] (some (3 : Int))) (some 9) =
      ({ mkSelector [some 3] (some (3 : Int)) with
           previous_value := some 3, value := some 9 },
        some .valueError, ["selector"]) :=
  selector_reject_no_rollback [some 3] (mkSelector [some 3] (some (3 : Int))) (some 9)
    rfl (by decide)

/-! ### C6: what `Typed._check_type` actually accepts -/

/-- C6: the claim fails on the code.  `Typed((int, str))` rejects the value
`5` with `TypeError` although `int` is one of the allowed shapes (each
loop iteration raises unless the value's type is a subclass of THAT
allowed type, so membership in the set is not sufficient), and
`Typed(int, allow_subclasses=False)` commits `True` — a value whose type
is a strict subtype of `int` — although the subtype flag is off (both
branches of the loop test plain `issubclass`, so the flag has no
effect). -/
theorem typed_check_requires_all_and_ignores_flag :
    (setValue (mkTyped [.intT, .strT] false (some (.vInt 0))) (some (.vInt 5))).2.1
        = some .typeError ∧
    (setValue (mkTyped [.intT, .strT] false (some (.vInt 0))) (some (.vInt 5))).1.value
        = some (.vInt 0) ∧
    (setValue (mkTyped [.intT] false (some (.vInt 0))) (some (.vBool true))).2.1 = none ∧
    (setValue (mkTyped [.intT] false (some (.vInt 0))) (some (.vBool true))).1.value
        = some (.vBool true) ∧
    checkTypeLoop false .boolT [.intT] = checkTypeLoop true .boolT [.intT] := by
  refine ⟨by decide, by decide, by decide, by decide, rfl⟩

/-! ### C10: the `Variable` scalar-delegation write restores the
nested slot's write modifiers -/

/-- C10: delegating a scalar write through a `Variable` slot runs the
nested `value` executor's write with the Variable's write modifiers
prepended to the nested executor's own, and — whether that delegated
write succeeds or raises (the exception resurfacing as `ValueError`) —
the nested executor's write-modifier list is restored to exactly its
prior contents before the call returns. -/
theorem variable_scalar_write_restores_modifiers {V : Type}
    (wm : List (Cb V)) (inner : Exec V) (v : Option V) :
    variableSetScalar wm inner v =
      ({ (setValue { inner with write_modifiers := wm ++ inner.write_modifiers } v).1 with
           write_modifiers := inner.write_modifiers },
        ((setValue { inner with write_modifiers := wm ++ inner.write_modifiers } v).2.1).map
          fun _ => PyErr.valueError) ∧
    (variableSetScalar wm inner v).1.write_modifiers = inner.write_modifiers :=
  ⟨rfl, rfl⟩

/-! ### C5: copy-on-fork when declaring attributes on a subtype -/

/-- C5 counterexample: the fork guard compares `__qualname__` strings, so a
subtype created with the parent's name — exactly the shape
`type(cls.__name__, (cls,), ...)` that per-instance specialization
builds — passes the "table is already mine" test and `__set_name__`
mutates the inherited table IN PLACE: after declaring `y` on the
subtype (class index 1), the parent's own table (heap id 0) contains
`y`. -/
theorem set_name_same_qualname_mutates_parent_table :
    (setName worldSameName 1 "y" 1).heap.get? 0 =
      some { owner_class := "A", entries := [("x", 0), ("y", 1)] } ∧
    (setName worldSameName 1 "y" 1).classes.get? 0 =
      some { cname := "A", qualname := "A", ownTable := some 0,
             parentIdx := none, perinstance := false } := by
  refine ⟨by decide, by decide⟩

/-- C5 amended: declaring a new attribute (or redeclaring one) on a subtype
whose `__qualname__` differs from the `owner_class` tag of the inherited
descriptor table first forks a private copy of the table, so the
attribute is never added to the parent type's (or any sibling's) table:
every pre-existing table is unchanged, and the subtype now owns a fresh
copy tagged with its qualname and extended with the new attribute.
When the qualnames coincide (a dynamically synthesized same-named
subclass), the inherited table is mutated in place instead. -/
theorem set_name_forks_when_qualname_differs (w : World) (subIdx : Nat) (sub : PyCls)
    (tid : Nat) (t : DTable) (name : String) (slot : Nat)
    (hc : w.classes.get? subIdx = some sub)
    (ht : lookupTable w subIdx = some tid)
    (hh : w.heap.get? tid = some t)
    (hq : t.owner_class ≠ sub.qualname) :
    (∀ i : Nat, i < w.heap.length → (setName w subIdx name slot).heap.get? i = w.heap.get? i) ∧
    (setName w subIdx name slot).heap.get? w.heap.length =
      some { owner_class := sub.qualname, entries := dinsert t.entries name slot } ∧
    (setName w subIdx name slot).classes.get? subIdx =
      some { sub with ownTable := some w.heap.length } := by
  unfold setName
  rw [hc]
  dsimp only
  rw [ht]
  dsimp only
  rw [hh]
  dsimp only
  rw [if_pos hq]
  refine ⟨fun i hi => List.get?_append hi, List.get?_concat_length _ _, ?_⟩
  have hlt : subIdx < w.classes.length := (List.get?_eq_some.mp hc).1
  exact List.get?_set_eq_of_lt _ hlt

theorem set_name_forks_witness :
    (∀ i : Nat, i < worldDiffName.heap.length →
      (setName worldDiffName 1 "y" 1).heap.get? i = worldDiffName.heap.get? i) ∧
    (setName worldDiffName 1 "y" 1).heap.get? worldDiffName.heap.length =
      some { owner_class := "B", entries := dinsert [("x", 0)] "y" 1 } ∧
    (setName worldDiffName 1 "y" 1).classes.get? 1 =
      some { cname := "B", qualname := "B", ownTable := some worldDiffName.heap.length,
             parentIdx := some 0, perinstance := false } :=
  set_name_forks_when_qualname_differs worldDiffName 1
    { cname := "B", qualname := "B", ownTable := none,
      parentIdx := some 0, perinstance := false }
    0 { owner_class := "A", entries := [("x", 0)] } "y" 1 rfl rfl rfl (by decide)

/-! ### C4: per-instance specialization leaks into the original type -/

/-- C4: the claim fails on the code.  Adding attribute `y` to the single
instance of the top-level class `A` does synthesize a private subtype
(the instance is rebound to class index 1), but
`inst._descriptors[name] = par` mutates the table that attribute lookup
reaches — the original `A`'s own table, since the synthesized subclass
has no `_descriptors` of its own and shares `A`'s `__qualname__` — so
the new attribute appears in the original type's descriptor table, and
an instance of the original `A` constructed afterwards binds `y` in its
`__params__`. -/
theorem add_par_leaks_into_original_type :
    ((addParToClass worldA instA "y" 1).2).clsIdx = 1 ∧
    ((addParToClass worldA instA "y" 1).2).iparams = [("x", 0), ("y", 1)] ∧
    (addParToClass worldA instA "y" 1).1.heap.get? 0 =
      some { owner_class := "A", entries := [("x", 0), ("y", 1)] } ∧
    mkInstW (addParToClass worldA instA "y" 1).1 0 =
      some { clsIdx := 0, iparams := [("x", 0), ("y", 1)] } := by
  refine ⟨by decide, by decide, by decide, by decide⟩

/-! ### C7: read-only enforcement -/

/-- C7 counterexample: the attribute `x` is read-only, the object was
constructed without a value for it, and the first post-construction
write succeeds — no exception, stored value now `5` — because
`__setattr__` routes a write to a still-prototype-bound attribute
through `_attach_generator`, which never consults `_readonly`. -/
theorem readonly_first_write_bypasses_check :
    roProto.readonly = true ∧
    (setattrP (fun _ => false) objReadonlyFresh "x" (some 5)).2 = none ∧
    slotValue (setattrP (fun _ => false) objReadonlyFresh "x" (some 5)).1 "x"
      = some (some 5) ∧
    slotValue objReadonlyFresh "x" = some (some 1) := by
  refine ⟨rfl, rfl, rfl, rfl⟩

/-- C7 amended: a write to a read-only attribute is rejected with
`ReadOnlyViolation` (`AttributeError`) and the object is left unchanged
PROVIDED the attribute is bound to an owned executor — i.e. it was
supplied an explicit value at construction or has already been written
once; a write to a read-only attribute still bound to the prototype
bypasses the check and succeeds. -/
theorem readonly_rejected_when_bound {V : Type} (isPar : Option V → Bool)
    (obj : PObj V) (key : String) (proto : Exec V) (v : Option V)
    (hd : lookupL obj.descriptors key = some proto)
    (hro : proto.readonly = true)
    (hb : isOwned obj key = true) :
    setattrP isPar obj key v = (obj, some .attributeError) := by
  unfold isOwned at hb
  rcases hp : lookupL obj.params key with _ | s
  · rw [hp] at hb
    simp at hb
  · cases s with
    | inl u =>
      rw [hp] at hb
      simp at hb
    | inr ex =>
      unfold setattrP
      rw [hd, hp]
      dsimp only
      simp [hro]

theorem readonly_rejected_when_bound_witness :
    setattrP (fun _ => false) objReadonlyBound "x" (some 9) =
      (objReadonlyBound, some .attributeError) :=
  readonly_rejected_when_bound (fun _ => false) objReadonlyBound "x" roProto (some 9)
    rfl rfl rfl

/-! ### C8: unrecognized constructor arguments -/

theorem lookupL_eq_none_forall {A : Type} :
    ∀ (l : List (String × A)) (k : String), lookupL l k = none → ∀ p ∈ l, p.1 ≠ k := by
  intro l k
  induction l with
  | nil => intro _ p hp; cases hp
  | cons q rest ih =>
    intro h p hp
    unfold lookupL at h
    by_cases hq : q.1 = k
    · rw [if_pos hq] at h
      cases h
    · rw [if_neg hq] at h
      cases hp with
      | head => exact hq
      | tail _ hmem => exact ih h p hmem

theorem initParams_shared_of_no_hits {V : Type} :
    ∀ (ds : List (String × Exec V)) (kwargs : List (String × Option V)),
      (∀ p ∈ ds, lookupL kwargs p.1 = none) →
      initParams ds kwargs = (ds.map fun p => (p.1, Sum.inl ()), none) := by
  intro ds
  induction ds with
  | nil => intro kwargs _; rfl
  | cons q rest ih =>
    intro kwargs h
    unfold initParams
    rw [h q (List.mem_cons_self q rest)]
    dsimp only
    rw [ih kwargs fun p hp => h p (List.mem_cons_of_mem q hp)]
    rfl

theorem lookupL_map_keys {V A : Type} (g : String × Exec V → A) :
    ∀ (l : List (String × Exec V)) (k : String), lookupL l k = none →
      lookupL (l.map fun p => (p.1, g p)) k = none := by
  intro l k
  induction l with
  | nil => intro _; rfl
  | cons q rest ih =>
    intro h
    unfold lookupL at h ⊢
    by_cases hq : q.1 = k
    · rw [if_pos hq] at h
      cases h
    · rw [if_neg hq] at h
      simp only [List.map]
      rw [if_neg hq]
      exact ih h

/-- C8 counterexample: constructing with the unrecognized argument
`bogus=5` makes the constructor execute `raise Warning(...)` — the call
signals an exception instead of merely emitting a diagnostic, so the
caller of `C(bogus=5)` does not receive the object. -/
theorem init_unknown_kwarg_is_fatal :
    (initP (fun _ => false) [("x", mkExec (some (1 : Int)))] [("bogus", some 5)]).2
        = some .warning ∧
    (initP (fun _ => false) [("x", mkExec (some (1 : Int)))] [("bogus", some 5)]).1.plain
        = [("bogus", some 5)] ∧
    lookupL (initP (fun _ => false) [("x", mkExec (some (1 : Int)))]
        [("bogus", some 5)]).1.params "bogus" = none := by
  refine ⟨rfl, rfl, rfl⟩

/-- C8 amended: constructing a Parameterized object with a named argument
that matches no declared attribute is fatal, not merely diagnostic, and
the unrecognized name never becomes a slot in `__params__` (the declared
attributes are all still bound to their prototypes).  If the supplied
value is not a Parameterized object, the name is set as a plain
non-observable attribute and the constructor then executes
`raise Warning(...)`, so the call raises unless the caller catches the
`Warning` (as the repository's own tests do for the analogous
`__setattr__` path).  If the supplied value IS a Parameterized object,
`__setattr__` calls `self.attachPar(...)` — a method that does not exist
anywhere in the repository (the attachment method on `Parameterized` is
`attach_parameter`) — so `AttributeError` propagates out of the
constructor before anything is installed and before the `Warning` line:
not even the plain attribute is set. -/
theorem init_unknown_kwarg_raises_warning {V : Type} (isPar : Option V → Bool)
    (ds : List (String × Exec V)) (k : String) (v : Option V)
    (hk : lookupL ds k = none) :
    lookupL (initP isPar ds [(k, v)]).1.params k = none ∧
    (initP isPar ds [(k, v)]).1.params = ds.map (fun p => (p.1, Sum.inl ())) ∧
    (isPar v = false →
      (initP isPar ds [(k, v)]).2 = some .warning ∧
      (initP isPar ds [(k, v)]).1.plain = [(k, v)]) ∧
    (isPar v = true →
      (initP isPar ds [(k, v)]).2 = some .attributeError ∧
      (initP isPar ds [(k, v)]).1.plain = []) := by
  have hall : ∀ p ∈ ds, lookupL [(k, v)] p.1 = none := by
    intro p hpm
    have hne := lookupL_eq_none_forall ds k hk p hpm
    unfold lookupL
    rw [if_neg fun hkk => hne hkk.symm]
    rfl
  have hmap := initParams_shared_of_no_hits ds [(k, v)] hall
  have hlo : leftoverKwargs ds [(k, v)] = [(k, v)] := by
    simp [leftoverKwargs, hk]
  unfold initP
  rw [hmap]
  dsimp only
  rw [hlo]
  dsimp only [List.isEmpty]
  unfold setLeftovers
  unfold setattrP
  dsimp only
  rw [hk]
  dsimp only
  by_cases hb : isPar v = true
  · rw [if_pos hb]
    refine ⟨lookupL_map_keys _ ds k hk, rfl, ?_, ?_⟩
    · intro hfalse
      rw [hb] at hfalse
      cases hfalse
    · intro _
      exact ⟨rfl, rfl⟩
  · rw [if_neg hb]
    refine ⟨lookupL_map_keys _ ds k hk, rfl, ?_, ?_⟩
    · intro _
      exact ⟨rfl, rfl⟩
    · intro htrue
      exact absurd htrue hb

/-! ### C9: the `is_default` (`_first`) flag lifecycle -/

theorem lookupL_dinsert_self {A : Type} :
    ∀ (l : List (String × A)) (k : String) (v : A), lookupL (dinsert l k v) k = some v := by
  intro l k v
  induction l with
  | nil => simp [dinsert, lookupL]
  | cons q rest ih =>
    unfold dinsert
    by_cases hq : q.1 = k
    · rw [if_pos hq]
      simp [lookupL]
    · rw [if_neg hq]
      unfold lookupL
      rw [if_neg hq]
      exact ih

theorem lookupL_initParams_shared {V : Type} :
    ∀ (ds : List (String × Exec V)) (kw : List (String × Option V)) (key : String),
      (initParams ds kw).2 = none → lookupL kw key = none →
      lookupL (initParams ds kw).1 key =
        (lookupL ds key).map fun _ => (Sum.inl () : PSlot V) := by
  intro ds
  induction ds with
  | nil => intro kw key _ _; rfl
  | cons q rest ih =>
    intro kw key h hkw
    unfold initParams at h ⊢
    rcases hq : lookupL kw q.1 with _ | tv
    · rw [hq] at h
      dsimp only at h ⊢
      simp only [lookupL]
      by_cases hqk : q.1 = key
      · rw [if_pos hqk, if_pos hqk]
        rfl
      · rw [if_neg hqk, if_neg hqk]
        exact ih kw key h hkw
    · rcases tv with _ | tval
      · rw [hq] at h
        dsimp only at h ⊢
        simp only [lookupL]
        by_cases hqk : q.1 = key
        · rw [if_pos hqk, if_pos hqk]
          rfl
        · rw [if_neg hqk, if_neg hqk]
          exact ih kw key h hkw
      · rw [hq] at h
        dsimp only at h ⊢
        have hqk : q.1 ≠ key := by
          intro he
          rw [he, hkw] at hq
          cases hq
        rcases ha : attachExec q.2 (some tval) with err | ⟨ex1, err2⟩
        · rw [ha] at h
          dsimp only at h
          cases h
        · rw [ha] at h
          rcases err2 with _ | err3
          · dsimp only at h ⊢
            simp only [lookupL]
            rw [if_neg hqk, if_neg hqk]
            exact ih kw key h hkw
          · dsimp only at h
            cases h

/-- A freshly constructed object reports `default = True` for a declared
attribute the constructor received no value for. -/
theorem initP_unsupplied_keeps_default {V : Type} (isPar : Option V → Bool)
    (ds : List (String × Exec V)) (kw : List (String × Option V)) (key : String)
    (proto : Exec V)
    (hd : lookupL ds key = some proto) (hf : proto.first = true)
    (hkw : lookupL kw key = none)
    (hip : (initParams ds kw).2 = none) (hlo : leftoverKwargs ds kw = []) :
    slotFirst (initP isPar ds kw).1 key = some true := by
  unfold initP
  dsimp only
  rw [hip]
  dsimp only
  rw [hlo]
  simp only [List.isEmpty_nil]
  rw [if_pos trivial]
  unfold slotFirst
  dsimp only
  rw [lookupL_initParams_shared ds kw key hip hkw, hd]
  dsimp only [Option.map]
  rw [hf]

/-- The first explicit write to a still-prototype-bound attribute clears
the `default` flag whether or not the write chain accepts the value,
provided the prototype's `value`-property read performed by
`_attach_generator` (for `_default_value`, core.py line 296) succeeds:
`_attach_generator` sets `_first = False` on the clone before running the
write, and the clone stays in `__params__` even when the write raises. -/
theorem first_write_attempt_clears_default {V : Type} (isPar : Option V → Bool)
    (obj : PObj V) (key : String) (proto : Exec V) (dv v : Option V)
    (hd : lookupL obj.descriptors key = some proto)
    (hr : readValue proto = Except.ok dv)
    (hp : lookupL obj.params key = some (Sum.inl ())) :
    slotFirst (setattrP isPar obj key v).1 key = some false := by
  unfold setattrP
  rw [hd, hp]
  dsimp only
  unfold attachExec
  rw [hr]
  dsimp only
  unfold slotFirst
  dsimp only
  rw [lookupL_dinsert_self]
  exact congrArg some (setValue_first_false _ v rfl)

/-- If the prototype's `value`-property read performed by
`_attach_generator` raises (a prototype read modifier can, e.g. a
`Sampler`-style hook), the exception propagates BEFORE the clone is
installed: the object is unchanged, so the `default` flag stays true. -/
theorem attach_read_raise_leaves_slot {V : Type} (isPar : Option V → Bool)
    (obj : PObj V) (key : String) (proto : Exec V) (err : PyErr) (v : Option V)
    (hd : lookupL obj.descriptors key = some proto)
    (hr : readValue proto = Except.error err)
    (hp : lookupL obj.params key = some (Sum.inl ())) :
    setattrP isPar obj key v = (obj, some err) := by
  unfold setattrP
  rw [hd, hp]
  dsimp only
  unfold attachExec
  rw [hr]

/-- Once an attribute's `default` flag is `False`, no further write —
accepted or rejected — sets it back to `True`. -/
theorem setattr_keeps_default_false {V : Type} (isPar : Option V → Bool)
    (obj : PObj V) (key : String) (v : Option V)
    (hf : slotFirst obj key = some false) :
    slotFirst (setattrP isPar obj key v).1 key = some false := by
  unfold setattrP
  rcases hd : lookupL obj.descriptors key with _ | proto
  · rcases hpp : lookupL obj.params key with _ | s
    · dsimp only
      by_cases hb : isPar v = true
      · rw [if_pos hb]
        exact hf
      · rw [if_neg hb]
        unfold slotFirst at hf ⊢
        exact hf
    · dsimp only
      by_cases hb : isPar v = true
      · rw [if_pos hb]
        exact hf
      · rw [if_neg hb]
        unfold slotFirst at hf ⊢
        exact hf
  · rcases hpp : lookupL obj.params key with _ | s
    · dsimp only
      exact hf
    · cases s with
      | inl u =>
        have hpf : proto.first = false := by
          unfold slotFirst at hf
          rw [hpp] at hf
          dsimp only at hf
          rw [hd] at hf
          dsimp only [Option.map] at hf
          exact Option.some.inj hf
        dsimp only
        rcases ha : attachExec proto v with err | ⟨ex1, err2⟩
        · dsimp only
          exact hf
        · have hex : ex1.first = false := by
            unfold attachExec at ha
            rcases hr : readValue proto with er | dv
            · rw [hr] at ha
              cases ha
            · rw [hr] at ha
              dsimp only at ha
              have h2 := congrArg
                (fun x => match x with
                  | Except.ok (p : Exec V × Option PyErr) => p.1
                  | Except.error _ => ex1) ha
              dsimp only at h2
              rw [← h2]
              exact setValue_first_false _ v rfl
          dsimp only
          unfold slotFirst
          dsimp only
          rw [lookupL_dinsert_self]
          exact congrArg some hex
      | inr ex =>
        have hex : ex.first = false := by
          unfold slotFirst at hf
          rw [hpp] at hf
          dsimp only at hf
          exact Option.some.inj hf
        dsimp only
        by_cases hro : proto.readonly = true
        · rw [if_pos hro]
          exact hf
        · rw [if_neg hro]
          by_cases hn : (v.isNone && !proto.allow_none) = true
          · rw [if_pos hn]
            exact hf
          · rw [if_neg hn]
            rcases hr : readValue ex with er | cur
            · dsimp only
              exact hf
            · dsimp only
              by_cases hpc : (isPar cur && !isPar v) = true
              · rw [if_pos hpc]
                exact hf
              · rw [if_neg hpc]
                unfold slotFirst
                dsimp only
                rw [lookupL_dinsert_self]
                exact congrArg some (setValue_first_false ex v hex)

/-- C9 counterexample: the typed attribute `n` was not supplied at
construction, so `is_default = true`; the FIRST explicit write is
rejected by the type validator (`TypeError` propagates), yet afterwards
`is_default = false` — `_attach_generator` clears `_first` on the clone
and installs it in `__params__` before running the write, and a raise
does not undo that. -/
theorem rejected_first_write_clears_default :
    slotFirst objTyped "n" = some true ∧
    (setattrP (fun _ => false) objTyped "n" (some (.vStr "bad"))).2 = some .typeError ∧
    slotFirst (setattrP (fun _ => false) objTyped "n" (some (.vStr "bad"))).1 "n"
      = some false :=
  ⟨rfl, rfl, rfl⟩

/-- C9 amended: `is_default` is true for a freshly constructed object's
attribute that was not supplied an explicit value at construction.  The
FIRST explicit write attempt clears `is_default` — whether the write
chain accepts or rejects the value — provided the prototype's
`value`-property read performed by `_attach_generator` succeeds; if that
read itself raises, the exception propagates before the clone is
installed, the slot is unchanged and `is_default` remains true.  Once
false, `is_default` stays false permanently: no later write, accepted or
rejected, resets it. -/
theorem is_default_lifecycle {V : Type} (isPar : Option V → Bool) :
    (∀ (ds : List (String × Exec V)) (kw : List (String × Option V)) (key : String)
        (proto : Exec V),
        lookupL ds key = some proto → proto.first = true → lookupL kw key = none →
        (initParams ds kw).2 = none → leftoverKwargs ds kw = [] →
        slotFirst (initP isPar ds kw).1 key = some true) ∧
    (∀ (obj : PObj V) (key : String) (proto : Exec V) (dv v : Option V),
        lookupL obj.descriptors key = some proto →
        readValue proto = Except.ok dv →
        lookupL obj.params key = some (Sum.inl ()) →
        slotFirst (setattrP isPar obj key v).1 key = some false) ∧
    (∀ (obj : PObj V) (key : String) (proto : Exec V) (err : PyErr) (v : Option V),
        lookupL obj.descriptors key = some proto →
        readValue proto = Except.error err →
        lookupL obj.params key = some (Sum.inl ()) →
        setattrP isPar obj key v = (obj, some err)) ∧
    (∀ (obj : PObj V) (key : String) (v : Option V),
        slotFirst obj key = some false →
        slotFirst (setattrP isPar obj key v).1 key = some false) :=
  ⟨fun ds kw key proto hd hf hkw hip hlo =>
      initP_unsupplied_keeps_default isPar ds kw key proto hd hf hkw hip hlo,
    fun obj key proto dv v hd hr hp =>
      first_write_attempt_clears_default isPar obj key proto dv v hd hr hp,
    fun obj key proto err v hd hr hp =>
      attach_read_raise_leaves_slot isPar obj key proto err v hd hr hp,
    fun obj key v hf => setattr_keeps_default_false isPar obj key v hf⟩

theorem is_default_lifecycle_witness :
    slotFirst objTyped "n" = some true ∧
    slotFirst (setattrP (fun _ => false) objTyped "n" (some (.vStr "nope"))).1 "n"
      = some false ∧
    (setattrP (fun _ => false) objReadRaises "s" (some (.vInt 5))
        = (objReadRaises, some .valueError) ∧
      slotFirst objReadRaises "s" = some true) ∧
    slotFirst (setattrP (fun _ => false)
        (setattrP (fun _ => false) objTyped "n" (some (.vInt 3))).1 "n"
        (some (.vStr "zz"))).1 "n" = some false :=
  ⟨(is_default_lifecycle (fun _ => false)).1 [("n", protoTyped)] [] "n" protoTyped
      rfl rfl rfl rfl rfl,
    (is_default_lifecycle (fun _ => false)).2.1 objTyped "n" protoTyped
      (some (.vInt 1)) (some (.vStr "nope")) rfl rfl rfl,
    ⟨(is_default_lifecycle (fun _ => false)).2.2.1 objReadRaises "s" protoReadRaises
        .valueError (some (.vInt 5)) rfl rfl rfl, rfl⟩,
    (is_default_lifecycle (fun _ => false)).2.2.2
      (setattrP (fun _ => false) objTyped "n" (some (.vInt 3))).1 "n"
      (some (.vStr "zz")) rfl⟩

theorem init_unknown_kwarg_raises_warning_witness :
    ((initP (fun x => x == some (99 : Int)) [("width", mkExec (some 7))]
        [("typo", some 1)]).2 = some .warning ∧
      (initP (fun x => x == some (99 : Int)) [("width", mkExec (some 7))]
        [("typo", some 1)]).1.plain = [("typo", some 1)] ∧
      lookupL (initP (fun x => x == some (99 : Int)) [("width", mkExec (some 7))]
        [("typo", some 1)]).1.params "typo" = none) ∧
    ((initP (fun x => x == some (99 : Int)) [("width", mkExec (some 7))]
        [("nested", some 99)]).2 = some .attributeError ∧
      (initP (fun x => x == some (99 : Int)) [("width", mkExec (some 7))]
        [("nested", some 99)]).1.plain = [] ∧
      lookupL (initP (fun x => x == some (99 : Int)) [("width", mkExec (some 7))]
        [("nested", some 99)]).1.params "nested" = none) := by
  have hA := init_unknown_kwarg_raises_warning (fun x => x == some (99 : Int))
    [("width", mkExec (some 7))] "typo" (some 1) rfl
  have hB := init_unknown_kwarg_raises_warning (fun x => x == some (99 : Int))
    [("width", mkExec (some 7))] "nested" (some 99) rfl
  exact ⟨⟨(hA.2.2.1 (by decide)).1, (hA.2.2.1 (by decide)).2, hA.1⟩,
    ⟨(hB.2.2.2 (by decide)).1, (hB.2.2.2 (by decide)).2, hB.1⟩⟩
